import Mathlib

/-
Shallow embedding of the pyoscar chart core (src/core/layer.py, src/core/graph.py,
src/core/graph_view.py, src/graphs/line_layer.py, src/graphs/bar_layer.py,
src/graphs/summary_layer.py).

Modelling conventions:
* Python floats are modelled as exact rationals (`ℚ`); numeric literals such as
  0.05, 0.1, 1.05 become 5/100, 1/10, 21/20.
* The `float('inf')` / `float('-inf')` accumulator sentinels used by the extent
  queries are modelled as `Option ℚ` with `none` playing the role of the infinity.
* `None`-able attributes (`self._min_x = None`, `self.x_data = None`, ...) are
  `Option` fields.
* Python dicts that the embedded operations only ever fold over or measure are
  association lists; the base-class dict `Layer._data` is kept as its list of
  keys, because every embedded operation reads only `len(self._data)`.
  In this repository `_data` is always a dict (it is initialised to `{}` and only
  written by `self._data[key] = value`), so `isinstance(self._data, dict)` is True.
* Style attributes (colors, line widths, ...) and the matplotlib rendering calls
  are omitted: they are never read by the bounds / history / interaction logic
  embedded here.
-/

/-- `min(min_val, v)` where the accumulator `none` stands for `float('inf')`. -/
def minOpt (mv : Option ℚ) (v : ℚ) : Option ℚ :=
  match mv with
  | none => some v
  | some m => some (min m v)

/-- `max(max_val, v)` where the accumulator `none` stands for `float('-inf')`. -/
def maxOpt (mv : Option ℚ) (v : ℚ) : Option ℚ :=
  match mv with
  | none => some v
  | some m => some (max m v)

/-- `np.min` on a list of values (only ever applied to nonempty lists in the source;
the 0 default is unreachable under the `len(...) > 0` guards). -/
def npMin (l : List ℚ) : ℚ :=
  match l with
  | [] => 0
  | a :: rest => rest.foldl min a

/-- `np.max` on a list of values (only ever applied to nonempty lists in the source). -/
def npMax (l : List ℚ) : ℚ :=
  match l with
  | [] => 0
  | a :: rest => rest.foldl max a

/-- `LayerPosition` enum from src/core/layer.py. -/
inductive LayerPosition where
  | Top
  | Bottom
  | Left
  | Right
  | Center
  deriving DecidableEq, Repr

/-- One entry of `LineLayer.data_series` / `BarLayer.data_series`: the dict built by
`add_data` for a non-default series name.  Only the `'x'` and `'y'` entries are ever
read by the embedded operations (the remaining keys are style attributes), and both
keys are always present, so the `'x' in series` membership tests in the source are
True here. -/
structure XYSeries where
  x : List ℚ
  y : List ℚ
  deriving DecidableEq, Repr

/-- The statistics dict stored per label by `SummaryLayer.add_data_point`.
The `'percentiles'` entry is omitted: the embedded extent queries read only
`'min'` and `'max'` (and `render`, which is not embedded, reads the rest).
All four keys are always present, so the `'min' in stats` / `'max' in stats`
membership tests in the source are True here. -/
structure SummaryStats where
  min : ℚ
  max : ℚ
  mean : ℚ
  median : ℚ
  deriving DecidableEq, Repr

/-- The per-subclass data storage of a layer: which class the layer is an instance
of, together with the data attributes that class adds on top of `Layer`. -/
inductive LayerKind where
  /-- a plain `Layer` (src/core/layer.py) -/
  | base : LayerKind
  /-- a `LineLayer`: `x_data`, `y_data`, `data_series` (src/graphs/line_layer.py) -/
  | line (x_data y_data : Option (List ℚ)) (data_series : List (String × XYSeries)) : LayerKind
  /-- a `BarLayer`: `x_data`, `y_data`, `data_series` (src/graphs/bar_layer.py) -/
  | bar (x_data y_data : Option (List ℚ)) (data_series : List (String × XYSeries)) : LayerKind
  /-- a `SummaryLayer`: `data_points`, `labels` (src/graphs/summary_layer.py) -/
  | summary (data_points : List (String × SummaryStats)) (labels : List String) : LayerKind
  deriving DecidableEq, Repr

/-- The state of a layer object: the `Layer` base-class attributes that the embedded
operations read, plus the subclass data (`kind`).  `_data` is the list of keys of the
base-class dict `self._data` (values are never read by the embedded operations). -/
structure Layer where
  name : String
  visible : Bool
  position : LayerPosition
  movable : Bool
  order : Int
  _data : List String
  selected : Bool
  highlighted : Bool
  kind : LayerKind
  deriving DecidableEq, Repr

/-- `Layer.__init__`. -/
def Layer.init (name : String) (position : LayerPosition) : Layer :=
  { name := name
    visible := true
    position := position
    movable := false
    order := 0
    _data := []
    selected := false
    highlighted := false
    kind := LayerKind.base }

/-- `LineLayer.__init__`: `x_data = None`, `y_data = None`, `data_series = {}`. -/
def LineLayer.init (name : String) (position : LayerPosition) : Layer :=
  { Layer.init name position with kind := LayerKind.line none none [] }

/-- `BarLayer.__init__`: `x_data = None`, `y_data = None`, `data_series = {}`. -/
def BarLayer.init (name : String) (position : LayerPosition) : Layer :=
  { Layer.init name position with kind := LayerKind.bar none none [] }

/-- `SummaryLayer.__init__`: `data_points = {}`, `labels = []`. -/
def SummaryLayer.init (name : String) (position : LayerPosition) : Layer :=
  { Layer.init name position with kind := LayerKind.summary [] [] }

/-- `Layer.add_data(key, data)`: `self._data[key] = data`.  Only the key set matters
to the embedded operations, so the value is dropped; assigning an existing key
leaves the key list unchanged. -/
def Layer.add_data (l : Layer) (key : String) : Layer :=
  if key ∈ l._data then l else { l with _data := l._data ++ [key] }

/-- `self.data_series[series_name] = {...}` on the association-list embedding of the
dict: overwrite in place when the key exists, append otherwise. -/
def dictSet (ds : List (String × XYSeries)) (k : String) (v : XYSeries) :
    List (String × XYSeries) :=
  if (ds.find? fun p => p.1 = k).isSome then
    ds.map fun p => if p.1 = k then (k, v) else p
  else ds ++ [(k, v)]

/-- `LineLayer.add_data(x, y, series_name)`: the default series is stored in
`x_data`/`y_data`, any other name in `data_series` (the base-class `_data` dict is
not touched).  On a non-`LineLayer` state this is a no-op (such a call does not
occur in the source). -/
def LineLayer.add_data (l : Layer) (x y : List ℚ) (series_name : String) : Layer :=
  match l.kind with
  | LayerKind.line xd yd ds =>
      if series_name = "default" then
        { l with kind := LayerKind.line (some x) (some y) ds }
      else
        { l with
            kind := (LayerKind.line xd yd (dictSet ds series_name { x := x, y := y })) }
  | _ => l

/-- `BarLayer.add_data(x, y, series_name)` (src/graphs/bar_layer.py lines 60-80):
same shape as `LineLayer.add_data`. -/
def BarLayer.add_data (l : Layer) (x y : List ℚ) (series_name : String) : Layer :=
  match l.kind with
  | LayerKind.bar xd yd ds =>
      if series_name = "default" then
        { l with kind := LayerKind.bar (some x) (some y) ds }
      else
        { l with
            kind := (LayerKind.bar xd yd (dictSet ds series_name { x := x, y := y })) }
  | _ => l

/-- `LineLayer.min_x` (src/graphs/line_layer.py lines 114-130). -/
def LineLayer.min_x (x_data : Option (List ℚ)) (data_series : List (String × XYSeries)) : ℚ :=
  let min_val : Option ℚ := none
  let min_val :=
    match x_data with
    | some xs => if 0 < xs.length then minOpt min_val (npMin xs) else min_val
    | none => min_val
  let min_val := data_series.foldl
    (fun mv s => if 0 < s.2.x.length then minOpt mv (npMin s.2.x) else mv) min_val
  min_val.getD 0

/-- `LineLayer.max_x` (src/graphs/line_layer.py lines 132-148). -/
def LineLayer.max_x (x_data : Option (List ℚ)) (data_series : List (String × XYSeries)) : ℚ :=
  let max_val : Option ℚ := none
  let max_val :=
    match x_data with
    | some xs => if 0 < xs.length then maxOpt max_val (npMax xs) else max_val
    | none => max_val
  let max_val := data_series.foldl
    (fun mv s => if 0 < s.2.x.length then maxOpt mv (npMax s.2.x) else mv) max_val
  max_val.getD 0

/-- `LineLayer.min_y` (src/graphs/line_layer.py lines 150-166). -/
def LineLayer.min_y (y_data : Option (List ℚ)) (data_series : List (String × XYSeries)) : ℚ :=
  let min_val : Option ℚ := none
  let min_val :=
    match y_data with
    | some ys => if 0 < ys.length then minOpt min_val (npMin ys) else min_val
    | none => min_val
  let min_val := data_series.foldl
    (fun mv s => if 0 < s.2.y.length then minOpt mv (npMin s.2.y) else mv) min_val
  min_val.getD 0

/-- `LineLayer.max_y` (src/graphs/line_layer.py lines 168-184). -/
def LineLayer.max_y (y_data : Option (List ℚ)) (data_series : List (String × XYSeries)) : ℚ :=
  let max_val : Option ℚ := none
  let max_val :=
    match y_data with
    | some ys => if 0 < ys.length then maxOpt max_val (npMax ys) else max_val
    | none => max_val
  let max_val := data_series.foldl
    (fun mv s => if 0 < s.2.y.length then maxOpt mv (npMax s.2.y) else mv) max_val
  max_val.getD 0

/-- `BarLayer.min_x` (src/graphs/bar_layer.py lines 99-115): same computation as
`LineLayer.min_x`. -/
def BarLayer.min_x (x_data : Option (List ℚ)) (data_series : List (String × XYSeries)) : ℚ :=
  let min_val : Option ℚ := none
  let min_val :=
    match x_data with
    | some xs => if 0 < xs.length then minOpt min_val (npMin xs) else min_val
    | none => min_val
  let min_val := data_series.foldl
    (fun mv s => if 0 < s.2.x.length then minOpt mv (npMin s.2.x) else mv) min_val
  min_val.getD 0

/-- `BarLayer.max_x` (src/graphs/bar_layer.py lines 117-139): like `LineLayer.max_x`
but with half an x-spacing of padding added when the default series has at least two
x values. -/
def BarLayer.max_x (x_data : Option (List ℚ)) (data_series : List (String × XYSeries)) : ℚ :=
  let max_val : Option ℚ := none
  let max_val :=
    match x_data with
    | some xs => if 0 < xs.length then maxOpt max_val (npMax xs) else max_val
    | none => max_val
  let max_val := data_series.foldl
    (fun mv s => if 0 < s.2.x.length then maxOpt mv (npMax s.2.x) else mv) max_val
  -- if max_val != float('-inf'): if self.x_data is not None and len(self.x_data) > 1:
  --   dx = self.x_data[1] - self.x_data[0]; max_val += dx * 0.5
  let max_val :=
    match max_val with
    | none => (none : Option ℚ)
    | some m =>
        match x_data with
        | some xs =>
            if 1 < xs.length then some (m + (xs.getD 1 0 - xs.getD 0 0) * (1/2)) else some m
        | none => some m
  max_val.getD 0

/-- `BarLayer.min_y` (src/graphs/bar_layer.py lines 141-161): the data minimum, but
forced to the 0 baseline when `min_val > 0` — note that `float('inf') > 0` is True,
so the empty-data sentinel also takes the baseline branch. -/
def BarLayer.min_y (y_data : Option (List ℚ)) (data_series : List (String × XYSeries)) : ℚ :=
  let min_val : Option ℚ := none
  let min_val :=
    match y_data with
    | some ys => if 0 < ys.length then minOpt min_val (npMin ys) else min_val
    | none => min_val
  let min_val := data_series.foldl
    (fun mv s => if 0 < s.2.y.length then minOpt mv (npMin s.2.y) else mv) min_val
  -- if min_val > 0: return 0.0
  if (match min_val with | none => true | some m => decide (0 < m)) then 0
  else min_val.getD 0

/-- `BarLayer.max_y` (src/graphs/bar_layer.py lines 163-183): the data maximum
multiplied by 1.05 (`max_val *= 1.05`), applied whenever any data exists. -/
def BarLayer.max_y (y_data : Option (List ℚ)) (data_series : List (String × XYSeries)) : ℚ :=
  let max_val : Option ℚ := none
  let max_val :=
    match y_data with
    | some ys => if 0 < ys.length then maxOpt max_val (npMax ys) else max_val
    | none => max_val
  let max_val := data_series.foldl
    (fun mv s => if 0 < s.2.y.length then maxOpt mv (npMax s.2.y) else mv) max_val
  let max_val :=
    match max_val with
    | none => (none : Option ℚ)
    | some m => some (m * (21/20))
  max_val.getD 0

/-- `SummaryLayer.min_x` (src/graphs/summary_layer.py lines 100-109): 0 with or
without labels ("Summary always starts at 0"). -/
def SummaryLayer.min_x (labels : List String) : ℚ :=
  if labels.isEmpty then 0 else 0

/-- `SummaryLayer.max_x` (src/graphs/summary_layer.py lines 111-120): one unit per
label. -/
def SummaryLayer.max_x (labels : List String) : ℚ :=
  if labels.isEmpty then 0 else (labels.length : ℚ)

/-- `SummaryLayer.min_y` (src/graphs/summary_layer.py lines 122-135). -/
def SummaryLayer.min_y (data_points : List (String × SummaryStats)) : ℚ :=
  let min_val := data_points.foldl (fun mv p => minOpt mv p.2.min) none
  min_val.getD 0

/-- `SummaryLayer.max_y` (src/graphs/summary_layer.py lines 137-150). -/
def SummaryLayer.max_y (data_points : List (String × SummaryStats)) : ℚ :=
  let max_val := data_points.foldl (fun mv p => maxOpt mv p.2.max) none
  max_val.getD 0

/-- Virtual dispatch of `layer.min_x()` over the four layer classes. -/
def Layer.min_x (l : Layer) : ℚ :=
  match l.kind with
  | LayerKind.base => 0
  | LayerKind.line x_data _ ds => LineLayer.min_x x_data ds
  | LayerKind.bar x_data _ ds => BarLayer.min_x x_data ds
  | LayerKind.summary _ labels => SummaryLayer.min_x labels

/-- Virtual dispatch of `layer.max_x()` over the four layer classes. -/
def Layer.max_x (l : Layer) : ℚ :=
  match l.kind with
  | LayerKind.base => 0
  | LayerKind.line x_data _ ds => LineLayer.max_x x_data ds
  | LayerKind.bar x_data _ ds => BarLayer.max_x x_data ds
  | LayerKind.summary _ labels => SummaryLayer.max_x labels

/-- Virtual dispatch of `layer.min_y()` over the four layer classes. -/
def Layer.min_y (l : Layer) : ℚ :=
  match l.kind with
  | LayerKind.base => 0
  | LayerKind.line _ y_data ds => LineLayer.min_y y_data ds
  | LayerKind.bar _ y_data ds => BarLayer.min_y y_data ds
  | LayerKind.summary dp _ => SummaryLayer.min_y dp

/-- Virtual dispatch of `layer.max_y()` over the four layer classes. -/
def Layer.max_y (l : Layer) : ℚ :=
  match l.kind with
  | LayerKind.base => 0
  | LayerKind.line _ y_data ds => LineLayer.max_y y_data ds
  | LayerKind.bar _ y_data ds => BarLayer.max_y y_data ds
  | LayerKind.summary dp _ => SummaryLayer.max_y dp

/-- The subclass storage of a layer kind contains no data values.  For line and bar
layers an array attribute is empty when it is `None` or a zero-length array, and
every named series must have empty `x` and `y` arrays. -/
def LayerKind.noData : LayerKind → Prop
  | LayerKind.base => True
  | LayerKind.line x_data y_data ds =>
      (x_data = none ∨ x_data = some []) ∧ (y_data = none ∨ y_data = some []) ∧
      ∀ p ∈ ds, p.2.x = [] ∧ p.2.y = []
  | LayerKind.bar x_data y_data ds =>
      (x_data = none ∨ x_data = some []) ∧ (y_data = none ∨ y_data = some []) ∧
      ∀ p ∈ ds, p.2.x = [] ∧ p.2.y = []
  | LayerKind.summary dp labels => dp = [] ∧ labels = []

/-- A layer state holding no data at all: the base-class `_data` dict is empty and
the subclass storage (if any) contains no values. -/
def Layer.hasNoData (l : Layer) : Prop :=
  l._data = [] ∧ l.kind.noData

/-- The state of a `Graph` (pane) object: src/core/graph.py.  The pixel-layout
attributes (`min_height`, `max_height`, `height`, `show_title`) and the crosshair
broadcast `current_time` are carried nowhere by the embedded operations and are
omitted. -/
structure Graph where
  name : String
  title : String
  units : String
  visible : Bool
  _min_x : Option ℚ
  _max_x : Option ℚ
  _min_y : Option ℚ
  _max_y : Option ℚ
  layers : List Layer
  deriving DecidableEq, Repr

/-- `Graph.__init__`: all four bounds start as `None`, no layers. -/
def Graph.init (name title units : String) : Graph :=
  { name := name
    title := title
    units := units
    visible := true
    _min_x := none
    _max_x := none
    _min_y := none
    _max_y := none
    layers := [] }

/-- The body of the `for layer in self.layers` loop of `Graph.reset_bounds`:
hidden layers are skipped (`continue`), a visible layer folds its four extents into
the accumulated optional bounds. -/
def Graph.resetStep (b : Option ℚ × Option ℚ × Option ℚ × Option ℚ) (layer : Layer) :
    Option ℚ × Option ℚ × Option ℚ × Option ℚ :=
  if layer.visible = false then b
  else
    (minOpt b.1 layer.min_x, maxOpt b.2.1 layer.max_x,
     minOpt b.2.2.1 layer.min_y, maxOpt b.2.2.2 layer.max_y)

/-- `Graph.reset_bounds` (src/core/graph.py lines 115-150): clear the four cached
bounds, fold every visible layer's extent in, default any still-unset bound to the
unit range `(0,1)` on each axis, then widen the y-bounds by 5% of the y-range
(taking the range as 1 when it is 0). -/
def Graph.reset_bounds (g : Graph) : Graph :=
  let b := g.layers.foldl Graph.resetStep (none, none, none, none)
  -- Default values if no data
  let min_x := b.1.getD 0
  let max_x := b.2.1.getD 1
  let min_y := b.2.2.1.getD 0
  let max_y := b.2.2.2.getD 1
  -- Add a small margin to the y-axis
  let y_range := max_y - min_y
  let y_range := if y_range = 0 then 1 else y_range
  { g with
    _min_x := some min_x
    _max_x := some max_x
    _min_y := some (min_y - y_range * (5/100))
    _max_y := some (max_y + y_range * (5/100)) }

/-- `Graph.set_x_bounds` (src/core/graph.py lines 152-161). -/
def Graph.set_x_bounds (g : Graph) (min_x max_x : ℚ) : Graph :=
  { g with _min_x := some min_x, _max_x := some max_x }

/-- `Graph.set_y_bounds` (src/core/graph.py lines 163-172). -/
def Graph.set_y_bounds (g : Graph) (min_y max_y : ℚ) : Graph :=
  { g with _min_y := some min_y, _max_y := some max_y }

/-- `Graph.min_x()`: lazily calls `reset_bounds` when `_min_x is None`, then returns
`self._min_x`.  The result is the returned value paired with the possibly mutated
graph (`reset_bounds` always leaves `_min_x` set, so the `getD` default is
unreachable). -/
def Graph.min_x (g : Graph) : ℚ × Graph :=
  match g._min_x with
  | some v => (v, g)
  | none =>
      let g := g.reset_bounds
      (g._min_x.getD 0, g)

/-- `Graph.max_x()`: lazy read of `_max_x`, see `Graph.min_x`. -/
def Graph.max_x (g : Graph) : ℚ × Graph :=
  match g._max_x with
  | some v => (v, g)
  | none =>
      let g := g.reset_bounds
      (g._max_x.getD 0, g)

/-- `Graph.min_y()`: lazy read of `_min_y`, see `Graph.min_x`. -/
def Graph.min_y (g : Graph) : ℚ × Graph :=
  match g._min_y with
  | some v => (v, g)
  | none =>
      let g := g.reset_bounds
      (g._min_y.getD 0, g)

/-- `Graph.max_y()`: lazy read of `_max_y`, see `Graph.min_x`. -/
def Graph.max_y (g : Graph) : ℚ × Graph :=
  match g._max_y with
  | some v => (v, g)
  | none =>
      let g := g.reset_bounds
      (g._max_y.getD 0, g)

/-- `Graph.is_empty` (src/core/graph.py lines 218-228).  The loop condition is
`layer.visible and not isinstance(layer._data, dict) or len(layer._data) > 0`,
which Python parses as
`(layer.visible and (not isinstance(layer._data, dict))) or (len(layer._data) > 0)`.
In this repository `layer._data` is always a dict, so the left disjunct is always
False and the loop returns False exactly when some layer — visible or hidden —
has a nonempty `_data` dict. -/
def Graph.is_empty (g : Graph) : Bool :=
  !(g.layers.any fun layer => decide (0 < layer._data.length))

/-- The state of a `GraphView` object: src/core/graph_view.py.  The matplotlib
figure/axes/toolbar handles and the `empty_text` message are rendering state and are
omitted (`update_display` only redraws, it mutates none of the embedded state).
A link group is stored as the list of indices (into `graphs`) of its member panes:
the Python dict `linked_groups` holds references to the very `Graph` objects held by
`self.graphs`, and an index into the owning list is the embedding of such an object
reference. -/
structure GraphView where
  title : String
  graphs : List Graph
  linked_groups : List (Nat × List Nat)
  selecting : Bool
  selection_start : Option ℚ
  selection_end : Option ℚ
  current_time : Option ℚ
  history : List (ℚ × ℚ)
  history_position : Int
  deriving DecidableEq, Repr

/-- `GraphView.__init__`: no graphs, no link groups, empty history with the cursor
at -1. -/
def GraphView.init (title : String) : GraphView :=
  { title := title
    graphs := []
    linked_groups := []
    selecting := false
    selection_start := none
    selection_end := none
    current_time := none
    history := []
    history_position := -1 }

/-- `group in self.linked_groups` / `self.linked_groups[group]` on the association
list embedding of the dict. -/
def lgLookup (groups : List (Nat × List Nat)) (gid : Nat) : Option (List Nat) :=
  (groups.find? fun p => p.1 = gid).map Prod.snd

/-- `self.linked_groups[group].append(idx)`, creating the group entry first when
absent (`if group not in self.linked_groups: self.linked_groups[group] = []`). -/
def lgAppend (groups : List (Nat × List Nat)) (gid : Nat) (idx : Nat) :
    List (Nat × List Nat) :=
  if (lgLookup groups gid).isSome then
    groups.map fun p => if p.1 = gid then (p.1, p.2 ++ [idx]) else p
  else
    groups ++ [(gid, [idx])]

/-- `GraphView.add_graph` (src/core/graph_view.py lines 61-76): append the pane and,
when `group > 0`, record its reference (here: its index) in that link group. -/
def GraphView.add_graph (v : GraphView) (g : Graph) (group : Nat) : GraphView :=
  let idx := v.graphs.length
  let graphs := v.graphs ++ [g]
  if 0 < group then
    { v with graphs := graphs, linked_groups := lgAppend v.linked_groups group idx }
  else
    { v with graphs := graphs }

/-- `for graph in self.linked_groups[group]: graph.set_x_bounds(min_x, max_x)`:
each pane object referenced by the member list is mutated in place; on the index
embedding this sets the bounds of exactly the member positions of the owning list. -/
def setXBoundsMembers (members : List Nat) (min_x max_x : ℚ) :
    Nat → List Graph → List Graph
  | _, [] => []
  | i, g :: gs =>
      (if i ∈ members then g.set_x_bounds min_x max_x else g)
        :: setXBoundsMembers members min_x max_x (i + 1) gs

/-- The history guard of `GraphView.set_x_bounds`:
`if not self.history or (self.history[-1][0] != min_x or self.history[-1][1] != max_x)`. -/
def GraphView.appendCheck (history : List (ℚ × ℚ)) (min_x max_x : ℚ) : Bool :=
  history.isEmpty ||
    (match history.getLast? with
     | some (m, mx) => decide (m ≠ min_x) || decide (mx ≠ max_x)
     | none => true)

/-- `GraphView.set_x_bounds` (src/core/graph_view.py lines 113-138): apply the
bounds to the panes of a registered positive link group, otherwise to every pane;
then append `(min_x, max_x)` to the history — unless it equals the last entry —
and move the history cursor to the new tail.  (`update_display` is rendering
only.) -/
def GraphView.set_x_bounds (v : GraphView) (min_x max_x : ℚ) (group : Nat) : GraphView :=
  let graphs :=
    if 0 < group ∧ (lgLookup v.linked_groups group).isSome then
      setXBoundsMembers ((lgLookup v.linked_groups group).getD []) min_x max_x 0 v.graphs
    else
      v.graphs.map fun g => g.set_x_bounds min_x max_x
  if GraphView.appendCheck v.history min_x max_x then
    { v with
      graphs := graphs
      history := v.history ++ [(min_x, max_x)]
      history_position := ((v.history ++ [(min_x, max_x)]).length : Int) - 1 }
  else
    { v with graphs := graphs }

/-- `GraphView._on_back` (src/core/graph_view.py lines 381-396): when the history
cursor can move back, move it and re-apply that historical `(min_x, max_x)` to
every owned pane directly (`for graph in self.graphs`), without touching the
history list.  (`update_display` is rendering only.)  The cursor is a valid index
whenever the handler fires on a reachable state, so the `getD` default is
unreachable. -/
def GraphView._on_back (v : GraphView) : GraphView :=
  if 0 < v.history_position then
    let pos := v.history_position - 1
    let b := v.history.getD pos.toNat (0, 0)
    { v with
      history_position := pos
      graphs := v.graphs.map fun g => g.set_x_bounds b.1 b.2 }
  else
    v

/-- `GraphView._on_forward` (src/core/graph_view.py lines 398-413): mirror image of
`GraphView._on_back`, moving the cursor forward when it is not already at the tail. -/
def GraphView._on_forward (v : GraphView) : GraphView :=
  if v.history_position < (v.history.length : Int) - 1 then
    let pos := v.history_position + 1
    let b := v.history.getD pos.toNat (0, 0)
    { v with
      history_position := pos
      graphs := v.graphs.map fun g => g.set_x_bounds b.1 b.2 }
  else
    v

/-- A matplotlib scroll event as read by `GraphView._on_scroll`: whether the pointer
is inside some axes, its data-space x position, and the scroll direction string
(`'up'` or `'down'`). -/
structure ScrollEvent where
  inaxes : Bool
  xdata : ℚ
  button : String

/-- `GraphView._on_scroll` (src/core/graph_view.py lines 345-379): read the first
pane's current x-range (a lazy read that may recompute that pane's bounds), shrink
it by the factor `1 - 0.1` on scroll-up and grow it by `1 + 0.1` otherwise,
recentre the new range on the pointer's `xdata`, and commit through
`GraphView.set_x_bounds` with the default `group=0`. -/
def GraphView._on_scroll (v : GraphView) (event : ScrollEvent) : GraphView :=
  if event.inaxes = false then v
  else
    match v.graphs with
    | [] => v
    | g0 :: rest =>
        let r1 := g0.min_x
        let min_x := r1.1
        let r2 := r1.2.max_x
        let max_x := r2.1
        let range_x := max_x - min_x
        let scale : ℚ := 1/10
        let new_range := if event.button = "up" then range_x * (1 - scale)
                         else range_x * (1 + scale)
        let center := event.xdata
        let new_min := center - new_range / 2
        let new_max := center + new_range / 2
        GraphView.set_x_bounds { v with graphs := r2.2 :: rest } new_min new_max 0

instance : Inhabited Graph := ⟨Graph.init "" "" ""⟩

/-- A graph whose only layer is hidden but carries one `_data` entry. -/
def graphHiddenData : Graph :=
  { Graph.init "pane" "" "" with
    layers := [{ (Layer.init "events" LayerPosition.Center).add_data "session" with
                 visible := false }] }

/-- A pane with no layers whose x-bounds were explicitly set to `(5, 10)` and whose
y-range was never computed. -/
def paneC2 : Graph := (Graph.init "flow" "" "").set_x_bounds 5 10

/-- A pane holding one visible `LineLayer` that contains no data at all. -/
def paneC3 : Graph :=
  { Graph.init "empty" "" "" with layers := [LineLayer.init "line" LayerPosition.Center] }

/-- A view owning one pane with x-bounds `(0, 1)` and no registered link groups. -/
def viewC4 : GraphView :=
  (GraphView.init "v").add_graph ((Graph.init "a" "" "").set_x_bounds 0 1) 0

/-- A view owning two panes, the first in link-group 1, the second in link-group 2. -/
def viewC4w : GraphView :=
  ((GraphView.init "w").add_graph ((Graph.init "a" "" "").set_x_bounds 0 1) 1).add_graph
    ((Graph.init "b" "" "").set_x_bounds 0 1) 2

/-- A view owning one pane with current x-bounds `(0, 10)`. -/
def viewC7 : GraphView :=
  (GraphView.init "v").add_graph ((Graph.init "a" "" "").set_x_bounds 0 10) 0

/-- The example bar layer of the spec scenario: default series `y = [10, 20, 30]`. -/
def barC8 : Layer :=
  BarLayer.add_data (BarLayer.init "bars" LayerPosition.Center) [0, 1, 2] [10, 20, 30]
    "default"

/-- The all-negative example bar layer: default series `y = [-10, -20]`. -/
def barC10 : Layer :=
  BarLayer.add_data (BarLayer.init "bars" LayerPosition.Center) [0, 1] [-10, -20]
    "default"


/-- A left fold whose step fixes every accumulator on the elements of `l` returns
its initial accumulator. -/
theorem foldl_fixed_of_mem {α β : Type} (f : β → α → β) (l : List α) (b : β)
    (h : ∀ b' : β, ∀ a ∈ l, f b' a = b') : l.foldl f b = b := by
  induction l generalizing b with
  | nil => rfl
  | cons a t ih =>
      rw [List.foldl_cons, h b a (by simp)]
      exact ih b fun b' x hx => h b' x (List.mem_cons_of_mem a hx)

/-- Folding `min` over a list yields either the seed or a member. -/
theorem foldl_min_mem (a : ℚ) (l : List ℚ) : l.foldl min a ∈ a :: l := by
  induction l generalizing a with
  | nil => simp
  | cons b t ih =>
      rw [List.foldl_cons]
      have hmem := ih (min a b)
      rw [List.mem_cons] at hmem
      rcases hmem with h | h
      · rcases min_choice a b with hm | hm <;> rw [hm] at h ⊢ <;> simp [h]
      · simp [List.mem_cons_of_mem, h]

/-- Folding `max` over a list yields either the seed or a member. -/
theorem foldl_max_mem (a : ℚ) (l : List ℚ) : l.foldl max a ∈ a :: l := by
  induction l generalizing a with
  | nil => simp
  | cons b t ih =>
      rw [List.foldl_cons]
      have hmem := ih (max a b)
      rw [List.mem_cons] at hmem
      rcases hmem with h | h
      · rcases max_choice a b with hm | hm <;> rw [hm] at h ⊢ <;> simp [h]
      · simp [List.mem_cons_of_mem, h]

/-- `np.min` of a nonempty list is one of its entries. -/
theorem npMin_mem (l : List ℚ) (h : l ≠ []) : npMin l ∈ l := by
  match l with
  | [] => exact absurd rfl h
  | a :: rest => simpa [npMin] using foldl_min_mem a rest

/-- `np.max` of a nonempty list is one of its entries. -/
theorem npMax_mem (l : List ℚ) (h : l ≠ []) : npMax l ∈ l := by
  match l with
  | [] => exact absurd rfl h
  | a :: rest => simpa [npMax] using foldl_max_mem a rest


/-- Record shape of `GraphView.set_x_bounds`: the pane update and the history
update are independent of each other. -/
theorem GraphView.set_x_bounds_eq (v : GraphView) (a b : ℚ) (group : Nat) :
    v.set_x_bounds a b group =
      { v with
        graphs :=
          if 0 < group ∧ (lgLookup v.linked_groups group).isSome then
            setXBoundsMembers ((lgLookup v.linked_groups group).getD []) a b 0 v.graphs
          else v.graphs.map fun g => g.set_x_bounds a b
        history :=
          if GraphView.appendCheck v.history a b then v.history ++ [(a, b)] else v.history
        history_position :=
          if GraphView.appendCheck v.history a b then
            ((v.history ++ [(a, b)]).length : Int) - 1
          else v.history_position } := by
  unfold GraphView.set_x_bounds
  by_cases h : GraphView.appendCheck v.history a b <;> simp [h]

/-- C1, counterexample: `graphHiddenData` has no visible layers at all — so every
visible layer vacuously has no series data and the claim demands
`is_empty() = True` — yet `is_empty()` is False, because the hidden layer's
nonempty `_data` dict trips the `len(layer._data) > 0` disjunct, which Python's
operator precedence leaves outside the `layer.visible and ...` conjunction. -/
theorem C1_counterexample :
    (graphHiddenData.layers.all fun l => !l.visible) = true ∧
    graphHiddenData.is_empty = false := by
  constructor <;> rfl

/-- C1, amended: `is_empty()` is True iff every layer of the graph — visible or
hidden — has an empty base-class `_data` dict.  Hidden layers are not exempted,
and per-subclass series storage (`LineLayer.x_data`/`data_series`, which
`LineLayer.add_data` fills instead of `_data`) is not consulted. -/
theorem C1_is_empty_iff (g : Graph) :
    g.is_empty = true ↔ ∀ l ∈ g.layers, l._data = [] := by
  simp [Graph.is_empty, List.any_eq_true]

/-- C2, counterexample: after `set_x_bounds(5, 10)` and with no explicit
`reset_bounds()` call, a single lazy `min_y()` read recomputes the pane's bounds
(`min_y` calls `reset_bounds`, which clears all four caches), so the next
`min_x()` read returns the recomputed 0 instead of the explicitly set 5. -/
theorem C2_counterexample :
    ((paneC2.min_y).2.min_x).1 = 0 ∧ ¬ ((paneC2.min_y).2.min_x).1 = 5 := by
  constructor <;> decide

/-- C2, amended: explicitly set x-bounds are returned by every subsequent
`min_x()`/`max_x()` read, and survive `min_y()`/`max_y()` reads **provided the
y-range is already computed**; a lazy `min_y()`/`max_y()` read on a pane whose
y-range is unset calls `reset_bounds()`, which recomputes and overwrites the
explicit x-bounds. -/
theorem C2_x_bounds_persist (g : Graph) (a b : ℚ)
    (hy1 : g._min_y.isSome) (hy2 : g._max_y.isSome) :
    ((g.set_x_bounds a b).min_x).1 = a ∧
    ((g.set_x_bounds a b).max_x).1 = b ∧
    ((((g.set_x_bounds a b).min_y).2).min_x).1 = a ∧
    ((((g.set_x_bounds a b).min_y).2).max_x).1 = b ∧
    ((((g.set_x_bounds a b).max_y).2).min_x).1 = a ∧
    ((((g.set_x_bounds a b).max_y).2).max_x).1 = b := by
  obtain ⟨v1, h1⟩ := Option.isSome_iff_exists.mp hy1
  obtain ⟨v2, h2⟩ := Option.isSome_iff_exists.mp hy2
  simp [Graph.set_x_bounds, Graph.min_x, Graph.max_x, Graph.min_y, Graph.max_y, h1, h2]

/-- C2, witness: a pane whose y-range was set to `(0, 1)` keeps the explicit
x-bounds `(2, 3)` across all the reads of the theorem. -/
theorem C2_witness :
    ((((Graph.init "p" "" "").set_y_bounds 0 1).set_x_bounds 2 3).min_x).1 = 2 ∧
    ((((Graph.init "p" "" "").set_y_bounds 0 1).set_x_bounds 2 3).max_x).1 = 3 ∧
    (((((Graph.init "p" "" "").set_y_bounds 0 1).set_x_bounds 2 3).min_y).2.min_x).1 = 2 ∧
    (((((Graph.init "p" "" "").set_y_bounds 0 1).set_x_bounds 2 3).min_y).2.max_x).1 = 3 ∧
    (((((Graph.init "p" "" "").set_y_bounds 0 1).set_x_bounds 2 3).max_y).2.min_x).1 = 2 ∧
    (((((Graph.init "p" "" "").set_y_bounds 0 1).set_x_bounds 2 3).max_y).2.max_x).1 = 3 :=
  C2_x_bounds_persist ((Graph.init "p" "" "").set_y_bounds 0 1) 2 3 (by decide) (by decide)

/-- C3, counterexample: `paneC3` has no visible layer containing data (its one
visible line layer is empty), yet `reset_bounds()` yields `max_x = 0` (not 1) and
`min_y = -1/20` (not 0): an empty visible layer is not skipped — it contributes its
`(0,0,0,0)` sentinel extent, so the `[0,1]` fallback never applies, and the 5%
y-margin always moves the y-bounds off their pre-margin values. -/
theorem C3_counterexample :
    (paneC3.layers.all fun l => l.visible) = true ∧
    paneC3.layers.all (fun l => (LineLayer.init "line" LayerPosition.Center).kind == l.kind) = true ∧
    (paneC3.reset_bounds.max_x).1 = 0 ∧ ¬ (paneC3.reset_bounds.max_x).1 = 1 ∧
    (paneC3.reset_bounds.min_y).1 = -(1/20) ∧ ¬ (paneC3.reset_bounds.min_y).1 = 0 := by
  have h1 : paneC3.reset_bounds = { paneC3 with
      _min_x := some 0, _max_x := some 0,
      _min_y := some (-(1/20)), _max_y := some (1/20) } := by
    simp [paneC3, Graph.reset_bounds, Graph.resetStep, Layer.min_x, Layer.max_x,
      Layer.min_y, Layer.max_y, LineLayer.init, Layer.init, LineLayer.min_x,
      LineLayer.max_x, LineLayer.min_y, LineLayer.max_y, minOpt, maxOpt, Graph.init]
    norm_num
  refine ⟨rfl, rfl, ?_, ?_, ?_, ?_⟩ <;> simp [h1, Graph.max_x, Graph.min_y]

/-- C3, amended: for every Graph all of whose layers are hidden (in particular a
Graph with no layers), `reset_bounds()` yields exactly
`(min_x, max_x, min_y, max_y) = (0, 1, -1/20, 21/20)`: the `[0,1] × [0,1]`
fallback with the 5% y-margin already applied.  (A visible layer with no data is
not covered: it is not skipped by the loop, it contributes its zero sentinel
extent.) -/
theorem C3_reset_bounds_no_visible_data (g : Graph)
    (h : ∀ l ∈ g.layers, l.visible = false) :
    (g.reset_bounds.min_x).1 = 0 ∧ (g.reset_bounds.max_x).1 = 1 ∧
    (g.reset_bounds.min_y).1 = -(1/20) ∧ (g.reset_bounds.max_y).1 = 21/20 := by
  have hfold : g.layers.foldl Graph.resetStep (none, none, none, none) =
      (none, none, none, none) := by
    refine foldl_fixed_of_mem _ _ _ fun b' l hl => ?_
    simp [Graph.resetStep, h l hl]
  simp [Graph.reset_bounds, hfold, Graph.min_x, Graph.max_x, Graph.min_y, Graph.max_y]
  norm_num

/-- C3, witness: a pane holding a single hidden layer (with data, even) resets to
the margined unit bounds. -/
theorem C3_witness :
    let g : Graph := { Graph.init "w" "" "" with
      layers := [{ (Layer.init "l" LayerPosition.Center).add_data "k" with visible := false }] }
    (g.reset_bounds.min_x).1 = 0 ∧ (g.reset_bounds.max_x).1 = 1 ∧
    (g.reset_bounds.min_y).1 = -(1/20) ∧ (g.reset_bounds.max_y).1 = 21/20 := by
  exact C3_reset_bounds_no_visible_data _ (by decide)

/-- `setXBoundsMembers` preserves the length of the pane list. -/
theorem setXBoundsMembers_length (members : List Nat) (a b : ℚ) (k : Nat)
    (gs : List Graph) : (setXBoundsMembers members a b k gs).length = gs.length := by
  induction gs generalizing k with
  | nil => rfl
  | cons g t ih => simp [setXBoundsMembers, ih]

/-- Position `i` of `setXBoundsMembers members a b k gs` is pane `i` of `gs`, with
its x-bounds set exactly when `k + i` is a member index. -/
theorem setXBoundsMembers_getD (members : List Nat) (a b : ℚ) (k : Nat)
    (gs : List Graph) (i : Nat) (hi : i < gs.length) :
    (setXBoundsMembers members a b k gs).getD i default =
      (if k + i ∈ members then (gs.getD i default).set_x_bounds a b
       else gs.getD i default) := by
  induction gs generalizing k i with
  | nil => simp at hi
  | cons g t ih =>
      cases i with
      | zero => simp [setXBoundsMembers]
      | succ j =>
          have hj : j < t.length := by simpa using hi
          have := ih (k + 1) j hj
          simp only [setXBoundsMembers, List.getD_cons_succ, this]
          have harith : k + 1 + j = k + (j + 1) := by omega
          rw [harith]

/-- `getD` through `List.map` at an in-range index. -/
theorem getD_map_graph (f : Graph → Graph) (gs : List Graph) (i : Nat)
    (hi : i < gs.length) :
    (gs.map f).getD i default = f (gs.getD i default) := by
  induction gs generalizing i with
  | nil => simp at hi
  | cons g t ih =>
      cases i with
      | zero => simp
      | succ j => simpa using ih j (by simpa using hi)

/-- C4, counterexample: group 5 is a positive id with no registered link-group, so
the claim demands that no pane's bounds change; but `set_x_bounds(2, 3, group=5)`
falls into the `else` branch (`group > 0 and group in self.linked_groups` is
False) and overwrites every pane's bounds. -/
theorem C4_counterexample :
    lgLookup viewC4.linked_groups 5 = none ∧
    viewC4.graphs.map Graph._min_x = [some 0] ∧
    viewC4.graphs.map Graph._max_x = [some 1] ∧
    (viewC4.set_x_bounds 2 3 5).graphs.map Graph._min_x = [some 2] ∧
    (viewC4.set_x_bounds 2 3 5).graphs.map Graph._max_x = [some 3] :=
  ⟨rfl, rfl, rfl, rfl, rfl⟩

/-- C4, amended: for `group > 0`, if a link-group is registered under `group` then
exactly its member panes get the new x-bounds and every other pane keeps its old
ones; if no link-group is registered under `group`, the call falls through to the
all-panes branch and **every** pane gets the new bounds. -/
theorem C4_set_x_bounds_group (v : GraphView) (a b : ℚ) (group : Nat)
    (hg : 0 < group) (i : Nat) (hi : i < v.graphs.length) :
    (∀ members, lgLookup v.linked_groups group = some members →
      (((v.set_x_bounds a b group).graphs.getD i default)._min_x,
       ((v.set_x_bounds a b group).graphs.getD i default)._max_x) =
        (if i ∈ members then (some a, some b)
         else ((v.graphs.getD i default)._min_x, (v.graphs.getD i default)._max_x))) ∧
    (lgLookup v.linked_groups group = none →
      (((v.set_x_bounds a b group).graphs.getD i default)._min_x,
       ((v.set_x_bounds a b group).graphs.getD i default)._max_x) =
        (some a, some b)) := by
  constructor
  · intro members hmem
    have hgr : (v.set_x_bounds a b group).graphs =
        setXBoundsMembers members a b 0 v.graphs := by
      rw [GraphView.set_x_bounds_eq]
      simp [hmem, hg]
    rw [hgr, setXBoundsMembers_getD members a b 0 v.graphs i hi]
    simp only [Nat.zero_add]
    split <;> simp [Graph.set_x_bounds]
  · intro hmem
    have hgr : (v.set_x_bounds a b group).graphs =
        v.graphs.map fun g => g.set_x_bounds a b := by
      rw [GraphView.set_x_bounds_eq]
      simp [hmem]
    rw [hgr, getD_map_graph _ _ i hi]
    simp [Graph.set_x_bounds]

/-- C4, witness: setting bounds on link-group 1 updates its member pane 0 to
`(5, 6)` and leaves pane 1 (a member of group 2 only) at `(0, 1)`. -/
theorem C4_witness :
    ((viewC4w.set_x_bounds 5 6 1).graphs.getD 0 default)._min_x = some 5 ∧
    ((viewC4w.set_x_bounds 5 6 1).graphs.getD 0 default)._max_x = some 6 ∧
    ((viewC4w.set_x_bounds 5 6 1).graphs.getD 1 default)._min_x = some 0 ∧
    ((viewC4w.set_x_bounds 5 6 1).graphs.getD 1 default)._max_x = some 1 := by
  have h0 := (C4_set_x_bounds_group viewC4w 5 6 1 (by decide) 0 (by decide)).1 [0] rfl
  have h1 := (C4_set_x_bounds_group viewC4w 5 6 1 (by decide) 1 (by decide)).1 [0] rfl
  simp only [List.mem_singleton, if_pos rfl] at h0
  norm_num at h1
  refine ⟨congrArg Prod.fst h0, congrArg Prod.snd h0, ?_, ?_⟩
  · exact h1.1.trans (by rfl)
  · exact h1.2.trans (by rfl)

/-- The Boolean history guard holds exactly when the history is empty or the new
bounds differ from its most recent entry. -/
theorem appendCheck_iff (h : List (ℚ × ℚ)) (a b : ℚ) :
    GraphView.appendCheck h a b = true ↔ (h = [] ∨ h.getLast? ≠ some (a, b)) := by
  unfold GraphView.appendCheck
  rcases hl : h.getLast? with _ | ⟨m, mx⟩
  · have : h = [] := by simpa using hl
    simp [this]
  · have hne : h ≠ [] := by
      intro he
      rw [he] at hl
      simp at hl
    simp [List.isEmpty_iff, hne, hl, Prod.ext_iff]
    tauto

/-- History/cursor behaviour of `GraphView.set_x_bounds`, split by the append
guard. -/
theorem GraphView.set_x_bounds_history_spec (v : GraphView) (a b : ℚ) (group : Nat) :
    ((v.history = [] ∨ v.history.getLast? ≠ some (a, b)) →
      (v.set_x_bounds a b group).history = v.history ++ [(a, b)] ∧
      (v.set_x_bounds a b group).history_position = (v.history.length : Int)) ∧
    (¬(v.history = [] ∨ v.history.getLast? ≠ some (a, b)) →
      (v.set_x_bounds a b group).history = v.history ∧
      (v.set_x_bounds a b group).history_position = v.history_position) := by
  rw [GraphView.set_x_bounds_eq]
  constructor
  · intro hcond
    have hb : GraphView.appendCheck v.history a b = true := (appendCheck_iff _ _ _).mpr hcond
    simp [hb]
  · intro hcond
    have hb : GraphView.appendCheck v.history a b = false := by
      rcases Bool.eq_false_or_eq_true (GraphView.appendCheck v.history a b) with h | h
      · exact absurd ((appendCheck_iff _ _ _).mp h) hcond
      · exact h
    simp [hb]

/-- C5: `GraphView.set_x_bounds(min, max, group)` appends `(min, max)` to the
navigation history exactly when the history is empty or `(min, max)` differs from
the most recent entry, in which case the cursor moves to the new last index; in
every other case history and cursor are left unchanged.  The link-group argument
plays no role in this. -/
theorem C5_history_append (v : GraphView) (a b : ℚ) (group : Nat) :
    ((v.history = [] ∨ v.history.getLast? ≠ some (a, b)) →
      (v.set_x_bounds a b group).history = v.history ++ [(a, b)] ∧
      (v.set_x_bounds a b group).history_position = (v.history.length : Int)) ∧
    (¬(v.history = [] ∨ v.history.getLast? ≠ some (a, b)) →
      (v.set_x_bounds a b group).history = v.history ∧
      (v.set_x_bounds a b group).history_position = v.history_position) :=
  GraphView.set_x_bounds_history_spec v a b group

/-- C5, witness: on a view with empty history, `set_x_bounds(1, 2)` appends and
moves the cursor to index 0; repeating the same bounds appends nothing and leaves
the cursor at 0. -/
theorem C5_witness :
    (((GraphView.init "v").set_x_bounds 1 2 0).history = [(1, 2)] ∧
      ((GraphView.init "v").set_x_bounds 1 2 0).history_position = 0) ∧
    ((((GraphView.init "v").set_x_bounds 1 2 0).set_x_bounds 1 2 0).history = [(1, 2)] ∧
      (((GraphView.init "v").set_x_bounds 1 2 0).set_x_bounds 1 2 0).history_position = 0) := by
  have h1 := (C5_history_append (GraphView.init "v") 1 2 0).1 (Or.inl rfl)
  have h1h : ((GraphView.init "v").set_x_bounds 1 2 0).history = [(1, 2)] := by
    simpa using h1.1
  have h1p : ((GraphView.init "v").set_x_bounds 1 2 0).history_position = 0 := by
    simpa using h1.2
  refine ⟨⟨h1h, h1p⟩, ?_⟩
  have h2 := (C5_history_append ((GraphView.init "v").set_x_bounds 1 2 0) 1 2 0).2
    (by simp [h1h])
  rw [h1h, h1p] at h2
  exact h2

/-- C6: on a freshly created view (empty history) with at least one pane, two
consecutive `set_x_bounds` calls with different bounds followed by `back()` put
every owned pane — regardless of any link-group arguments used by the two calls —
at the first bounds, and a subsequent `forward()` puts every owned pane at the
second bounds; neither handler touches the history list. -/
theorem C6_back_forward (v : GraphView) (a1 b1 a2 b2 : ℚ) (g1 g2 : Nat)
    (hfresh : v.history = []) (hpanes : v.graphs ≠ [])
    (hne : (a1, b1) ≠ (a2, b2)) :
    ((((v.set_x_bounds a1 b1 g1).set_x_bounds a2 b2 g2)._on_back).graphs.all
        fun g => g._min_x == some a1 && g._max_x == some b1) = true ∧
    (((v.set_x_bounds a1 b1 g1).set_x_bounds a2 b2 g2)._on_back).history =
      ((v.set_x_bounds a1 b1 g1).set_x_bounds a2 b2 g2).history ∧
    (((((v.set_x_bounds a1 b1 g1).set_x_bounds a2 b2 g2)._on_back)._on_forward).graphs.all
        fun g => g._min_x == some a2 && g._max_x == some b2) = true ∧
    ((((v.set_x_bounds a1 b1 g1).set_x_bounds a2 b2 g2)._on_back)._on_forward).history =
      ((v.set_x_bounds a1 b1 g1).set_x_bounds a2 b2 g2).history := by
  set v1 := v.set_x_bounds a1 b1 g1 with hv1
  have h1 := (GraphView.set_x_bounds_history_spec v a1 b1 g1).1 (Or.inl hfresh)
  have h1h : v1.history = [(a1, b1)] := by rw [← hv1] at h1; simpa [hfresh] using h1.1
  set v2 := v1.set_x_bounds a2 b2 g2 with hv2
  have h2 := (GraphView.set_x_bounds_history_spec v1 a2 b2 g2).1
    (Or.inr (by rw [h1h]; simpa using hne))
  have h2h : v2.history = [(a1, b1), (a2, b2)] := by
    rw [← hv2] at h2
    rw [h2.1, h1h]
    rfl
  have h2p : v2.history_position = 1 := by
    rw [← hv2] at h2
    rw [h2.2, h1h]
    rfl
  have hback : v2._on_back =
      { v2 with
        history_position := 0
        graphs := v2.graphs.map fun g => g.set_x_bounds a1 b1 } := by
    unfold GraphView._on_back
    rw [if_pos (by rw [h2p]; norm_num)]
    rw [h2p, h2h]
    rfl
  have hfwd : (v2._on_back)._on_forward =
      { v2 with
        history_position := 1
        graphs := (v2.graphs.map fun g => g.set_x_bounds a1 b1).map
          fun g => g.set_x_bounds a2 b2 } := by
    unfold GraphView._on_forward
    rw [hback]
    simp only [h2h]
    rw [if_pos (by norm_num)]
    rfl
  refine ⟨?_, ?_, ?_, ?_⟩
  · rw [List.all_eq_true]
    intro g hg
    rw [hback] at hg
    simp only [List.mem_map] at hg
    obtain ⟨g0, _, rfl⟩ := hg
    simp [Graph.set_x_bounds]
  · rw [hback]
  · rw [List.all_eq_true]
    intro g hg
    rw [hfwd] at hg
    simp only [List.mem_map] at hg
    obtain ⟨g0, ⟨g00, _, rfl⟩, rfl⟩ := hg
    simp [Graph.set_x_bounds]
  · rw [hfwd]

/-- C6, witness: one pane, bounds `(1,2)` then `(3,4)`: `back()` restores `(1,2)`
on the pane, `forward()` restores `(3,4)`, and the history is untouched by both. -/
theorem C6_witness :
    ((((((GraphView.init "v").add_graph (Graph.init "a" "" "") 0).set_x_bounds 1 2
          0).set_x_bounds 3 4 0)._on_back).graphs.all
        fun g => g._min_x == some 1 && g._max_x == some 2) = true ∧
    (((((GraphView.init "v").add_graph (Graph.init "a" "" "") 0).set_x_bounds 1 2
          0).set_x_bounds 3 4 0)._on_back).history =
      ((((GraphView.init "v").add_graph (Graph.init "a" "" "") 0).set_x_bounds 1 2
          0).set_x_bounds 3 4 0).history ∧
    (((((((GraphView.init "v").add_graph (Graph.init "a" "" "") 0).set_x_bounds 1 2
          0).set_x_bounds 3 4 0)._on_back)._on_forward).graphs.all
        fun g => g._min_x == some 3 && g._max_x == some 4) = true ∧
    ((((((GraphView.init "v").add_graph (Graph.init "a" "" "") 0).set_x_bounds 1 2
          0).set_x_bounds 3 4 0)._on_back)._on_forward).history =
      ((((GraphView.init "v").add_graph (Graph.init "a" "" "") 0).set_x_bounds 1 2
          0).set_x_bounds 3 4 0).history :=
  C6_back_forward ((GraphView.init "v").add_graph (Graph.init "a" "" "") 0) 1 2 3 4 0 0
    rfl (by decide) (by decide)

/-- One scroll event on a view with a first pane whose bounds are already cached:
the handler reads that pane's range and commits the rescaled, pointer-centred range
through `set_x_bounds` with `group = 0`. -/
theorem GraphView._on_scroll_eq (v : GraphView) (g0 : Graph) (rest : List Graph)
    (c : ℚ) (btn : String) (a b : ℚ) (hgr : v.graphs = g0 :: rest)
    (hmin : g0._min_x = some a) (hmax : g0._max_x = some b) :
    v._on_scroll { inaxes := true, xdata := c, button := btn } =
      GraphView.set_x_bounds { v with graphs := g0 :: rest }
        (c - (b - a) * (if btn = "up" then 1 - 1/10 else 1 + 1/10) / 2)
        (c + (b - a) * (if btn = "up" then 1 - 1/10 else 1 + 1/10) / 2) 0 := by
  unfold GraphView._on_scroll
  rw [hgr]
  by_cases hb : btn = "up" <;> simp [Graph.min_x, Graph.max_x, hmin, hmax, hb]

/-- C7: on a view whose first pane currently has x-bounds `(a, b)` of width
`w = b - a > 0`, a scroll-up (zoom-in) at data position `c` followed by a
scroll-down (zoom-out) at the same `c` leaves the first pane with x-bounds
exactly `[c - (99/200)w, c + (99/200)w]`: width `(99/100)w` — the factors
`(1-1/10)` and `(1+1/10)` compose to `99/100`, not 1 — centred on `c`. -/
theorem C7_scroll_roundtrip (v : GraphView) (g0 : Graph) (rest : List Graph)
    (a b w c : ℚ) (hgr : v.graphs = g0 :: rest)
    (hmin : g0._min_x = some a) (hmax : g0._max_x = some b)
    (hw : b - a = w) (hwpos : 0 < w) :
    ((v._on_scroll { inaxes := true, xdata := c, button := "up" })._on_scroll
        { inaxes := true, xdata := c, button := "down" }).graphs.head? =
      some (((v._on_scroll { inaxes := true, xdata := c, button := "up" })._on_scroll
        { inaxes := true, xdata := c, button := "down" }).graphs.headD default) ∧
    (((v._on_scroll { inaxes := true, xdata := c, button := "up" })._on_scroll
        { inaxes := true, xdata := c, button := "down" }).graphs.headD
          default)._min_x = some (c - (99/200) * w) ∧
    (((v._on_scroll { inaxes := true, xdata := c, button := "up" })._on_scroll
        { inaxes := true, xdata := c, button := "down" }).graphs.headD
          default)._max_x = some (c + (99/200) * w) ∧
    (c + (99/200) * w) - (c - (99/200) * w) = (99/100) * w ∧
    ((c - (99/200) * w) + (c + (99/200) * w)) / 2 = c := by
  subst hw
  have hup := GraphView._on_scroll_eq v g0 rest c "up" a b hgr hmin hmax
  simp only [if_pos rfl] at hup
  have hupg : (v._on_scroll { inaxes := true, xdata := c, button := "up" }).graphs =
      (g0.set_x_bounds (c - (b - a) * (1 - 1/10) / 2) (c + (b - a) * (1 - 1/10) / 2)) ::
        rest.map (fun g => g.set_x_bounds (c - (b - a) * (1 - 1/10) / 2)
          (c + (b - a) * (1 - 1/10) / 2)) := by
    rw [hup, GraphView.set_x_bounds_eq]
    simp
  have hdn := GraphView._on_scroll_eq
    (v._on_scroll { inaxes := true, xdata := c, button := "up" })
    (g0.set_x_bounds (c - (b - a) * (1 - 1/10) / 2) (c + (b - a) * (1 - 1/10) / 2))
    (rest.map (fun g => g.set_x_bounds (c - (b - a) * (1 - 1/10) / 2)
      (c + (b - a) * (1 - 1/10) / 2)))
    c "down" (c - (b - a) * (1 - 1/10) / 2) (c + (b - a) * (1 - 1/10) / 2)
    hupg rfl rfl
  rw [if_neg (by simp)] at hdn
  have hdng : ((v._on_scroll { inaxes := true, xdata := c, button := "up" })._on_scroll
      { inaxes := true, xdata := c, button := "down" }).graphs =
      ((g0.set_x_bounds (c - (b - a) * (1 - 1/10) / 2)
          (c + (b - a) * (1 - 1/10) / 2)).set_x_bounds
          (c - ((c + (b - a) * (1 - 1/10) / 2) - (c - (b - a) * (1 - 1/10) / 2)) * (1 + 1/10) / 2)
          (c + ((c + (b - a) * (1 - 1/10) / 2) - (c - (b - a) * (1 - 1/10) / 2)) * (1 + 1/10) / 2)) ::
        ((rest.map (fun g => g.set_x_bounds (c - (b - a) * (1 - 1/10) / 2)
            (c + (b - a) * (1 - 1/10) / 2))).map
          (fun g => g.set_x_bounds
            (c - ((c + (b - a) * (1 - 1/10) / 2) - (c - (b - a) * (1 - 1/10) / 2)) * (1 + 1/10) / 2)
            (c + ((c + (b - a) * (1 - 1/10) / 2) - (c - (b - a) * (1 - 1/10) / 2)) * (1 + 1/10) / 2))) := by
    rw [hdn, GraphView.set_x_bounds_eq]
    simp
  refine ⟨?_, ?_, ?_, by ring, by ring⟩
  · rw [hdng]
    simp
  · rw [hdng]
    simp only [List.headD_cons, Graph.set_x_bounds, Option.some.injEq]
    ring
  · rw [hdng]
    simp only [List.headD_cons, Graph.set_x_bounds, Option.some.injEq]
    ring

/-- C7, witness: width 10 about pointer position 5 — zoom-in then zoom-out lands on
`[5 - 4.95, 5 + 4.95] = [1/20, 199/20]`, width `99/10`, centred on 5. -/
theorem C7_witness :
    (((viewC7._on_scroll { inaxes := true, xdata := 5, button := "up" })._on_scroll
        { inaxes := true, xdata := 5, button := "down" }).graphs.headD
          default)._min_x = some (1/20) ∧
    (((viewC7._on_scroll { inaxes := true, xdata := 5, button := "up" })._on_scroll
        { inaxes := true, xdata := 5, button := "down" }).graphs.headD
          default)._max_x = some (199/20) := by
  have h := C7_scroll_roundtrip viewC7 ((Graph.init "a" "" "").set_x_bounds 0 10) []
    0 10 10 5 rfl rfl rfl (by norm_num) (by norm_num)
  refine ⟨?_, ?_⟩
  · rw [h.2.1]
    simp only [Option.some.injEq]
    norm_num
  · rw [h.2.2.1]
    simp only [Option.some.injEq]
    norm_num

/-- C8: a bar layer whose only data is a default series of strictly positive
y-values reports `min_y() = 0` (forced baseline) and `max_y() = 1.05` times the
data maximum. -/
theorem C8_bar_positive (l : Layer) (xd : Option (List ℚ)) (ys : List ℚ)
    (hk : l.kind = LayerKind.bar xd (some ys) [])
    (hne : ys ≠ []) (hpos : ∀ y ∈ ys, 0 < y) :
    Layer.min_y l = 0 ∧ Layer.max_y l = npMax ys * (21/20) := by
  have hlen : 0 < ys.length := List.length_pos.mpr hne
  constructor
  · have hmin : 0 < npMin ys := hpos _ (npMin_mem ys hne)
    simp [Layer.min_y, hk, BarLayer.min_y, minOpt, hlen, hmin]
  · simp [Layer.max_y, hk, BarLayer.max_y, maxOpt, hlen]

/-- C8, witness: for `y = [10, 20, 30]`, `min_y() = 0` and
`max_y() = 31.5 = 63/2`. -/
theorem C8_witness : Layer.min_y barC8 = 0 ∧ Layer.max_y barC8 = 63/2 := by
  have h := C8_bar_positive barC8 (some [0, 1, 2]) [10, 20, 30] rfl (by decide)
    (by decide)
  refine ⟨h.1, h.2.trans ?_⟩
  norm_num [npMax, List.foldl, max_def]

/-- With every named series devoid of x-values, the series fold of an x-extent
query fixes its accumulator. -/
theorem foldl_minx_nil (ds : List (String × XYSeries))
    (hds : ∀ p ∈ ds, p.2.x = []) (mv : Option ℚ) :
    ds.foldl (fun mv s => if 0 < s.2.x.length then minOpt mv (npMin s.2.x) else mv)
      mv = mv :=
  foldl_fixed_of_mem _ _ _ fun mv' s hs => by simp [(hds s hs)]

/-- Series fold of `max_x`, empty-series case. -/
theorem foldl_maxx_nil (ds : List (String × XYSeries))
    (hds : ∀ p ∈ ds, p.2.x = []) (mv : Option ℚ) :
    ds.foldl (fun mv s => if 0 < s.2.x.length then maxOpt mv (npMax s.2.x) else mv)
      mv = mv :=
  foldl_fixed_of_mem _ _ _ fun mv' s hs => by simp [(hds s hs)]

/-- Series fold of `min_y`, empty-series case. -/
theorem foldl_miny_nil (ds : List (String × XYSeries))
    (hds : ∀ p ∈ ds, p.2.y = []) (mv : Option ℚ) :
    ds.foldl (fun mv s => if 0 < s.2.y.length then minOpt mv (npMin s.2.y) else mv)
      mv = mv :=
  foldl_fixed_of_mem _ _ _ fun mv' s hs => by simp [(hds s hs)]

/-- Series fold of `max_y`, empty-series case. -/
theorem foldl_maxy_nil (ds : List (String × XYSeries))
    (hds : ∀ p ∈ ds, p.2.y = []) (mv : Option ℚ) :
    ds.foldl (fun mv s => if 0 < s.2.y.length then maxOpt mv (npMax s.2.y) else mv)
      mv = mv :=
  foldl_fixed_of_mem _ _ _ fun mv' s hs => by simp [(hds s hs)]

/-- C9: on every layer variant holding no data — base `Layer`, `LineLayer`,
`BarLayer`, `SummaryLayer` — all four extent queries return the 0 sentinel.
(In the embedding the queries are total functions, so "never raises" holds by
construction.) -/
theorem C9_empty_extents (l : Layer) (h : l.hasNoData) :
    Layer.min_x l = 0 ∧ Layer.max_x l = 0 ∧ Layer.min_y l = 0 ∧ Layer.max_y l = 0 := by
  obtain ⟨hdata, hkind⟩ := h
  rcases hk : l.kind with _ | ⟨xd, yd, ds⟩ | ⟨xd, yd, ds⟩ | ⟨dp, labels⟩ <;>
    rw [hk] at hkind
  · simp [Layer.min_x, Layer.max_x, Layer.min_y, Layer.max_y, hk]
  · obtain ⟨hxd, hyd, hds⟩ := hkind
    have hdsx : ∀ p ∈ ds, p.2.x = [] := fun p hp => (hds p hp).1
    have hdsy : ∀ p ∈ ds, p.2.y = [] := fun p hp => (hds p hp).2
    refine ⟨?_, ?_, ?_, ?_⟩ <;>
      simp only [Layer.min_x, Layer.max_x, Layer.min_y, Layer.max_y, hk]
    · rcases hxd with rfl | rfl <;>
        simp [LineLayer.min_x, foldl_minx_nil ds hdsx]
    · rcases hxd with rfl | rfl <;>
        simp [LineLayer.max_x, foldl_maxx_nil ds hdsx]
    · rcases hyd with rfl | rfl <;>
        simp [LineLayer.min_y, foldl_miny_nil ds hdsy]
    · rcases hyd with rfl | rfl <;>
        simp [LineLayer.max_y, foldl_maxy_nil ds hdsy]
  · obtain ⟨hxd, hyd, hds⟩ := hkind
    have hdsx : ∀ p ∈ ds, p.2.x = [] := fun p hp => (hds p hp).1
    have hdsy : ∀ p ∈ ds, p.2.y = [] := fun p hp => (hds p hp).2
    refine ⟨?_, ?_, ?_, ?_⟩ <;>
      simp only [Layer.min_x, Layer.max_x, Layer.min_y, Layer.max_y, hk]
    · rcases hxd with rfl | rfl <;>
        simp [BarLayer.min_x, foldl_minx_nil ds hdsx]
    · rcases hxd with rfl | rfl <;>
        simp [BarLayer.max_x, foldl_maxx_nil ds hdsx]
    · rcases hyd with rfl | rfl <;>
        simp [BarLayer.min_y, foldl_miny_nil ds hdsy]
    · rcases hyd with rfl | rfl <;>
        simp [BarLayer.max_y, foldl_maxy_nil ds hdsy]
  · obtain ⟨rfl, rfl⟩ := hkind
    simp [Layer.min_x, Layer.max_x, Layer.min_y, Layer.max_y, hk,
      SummaryLayer.min_x, SummaryLayer.max_x, SummaryLayer.min_y, SummaryLayer.max_y]

/-- C9, witness: the four freshly constructed layer variants all report the
`(0, 0, 0, 0)` sentinel extent. -/
theorem C9_witness :
    (Layer.min_x (Layer.init "l0" LayerPosition.Center) = 0 ∧
      Layer.max_x (Layer.init "l0" LayerPosition.Center) = 0 ∧
      Layer.min_y (Layer.init "l0" LayerPosition.Center) = 0 ∧
      Layer.max_y (Layer.init "l0" LayerPosition.Center) = 0) ∧
    (Layer.min_x (LineLayer.init "l1" LayerPosition.Center) = 0 ∧
      Layer.max_x (LineLayer.init "l1" LayerPosition.Center) = 0 ∧
      Layer.min_y (LineLayer.init "l1" LayerPosition.Center) = 0 ∧
      Layer.max_y (LineLayer.init "l1" LayerPosition.Center) = 0) ∧
    (Layer.min_x (BarLayer.init "l2" LayerPosition.Center) = 0 ∧
      Layer.max_x (BarLayer.init "l2" LayerPosition.Center) = 0 ∧
      Layer.min_y (BarLayer.init "l2" LayerPosition.Center) = 0 ∧
      Layer.max_y (BarLayer.init "l2" LayerPosition.Center) = 0) ∧
    (Layer.min_x (SummaryLayer.init "l3" LayerPosition.Center) = 0 ∧
      Layer.max_x (SummaryLayer.init "l3" LayerPosition.Center) = 0 ∧
      Layer.min_y (SummaryLayer.init "l3" LayerPosition.Center) = 0 ∧
      Layer.max_y (SummaryLayer.init "l3" LayerPosition.Center) = 0) :=
  ⟨C9_empty_extents _ ⟨rfl, trivial⟩,
   C9_empty_extents _ ⟨rfl, Or.inl rfl, Or.inl rfl, by simp⟩,
   C9_empty_extents _ ⟨rfl, Or.inl rfl, Or.inl rfl, by simp⟩,
   C9_empty_extents _ ⟨rfl, rfl, rfl⟩⟩

/-- C10: a bar layer whose only data is a default series of strictly negative
y-values reports `max_y()` equal to 1.05 times the (negative) data maximum — a
value strictly below the data maximum, so the multiplicative top padding moves the
reported upper bound below the data instead of above it. -/
theorem C10_bar_negative (l : Layer) (xd : Option (List ℚ)) (ys : List ℚ)
    (hk : l.kind = LayerKind.bar xd (some ys) [])
    (hne : ys ≠ []) (hneg : ∀ y ∈ ys, y < 0) :
    Layer.max_y l = npMax ys * (21/20) ∧ npMax ys * (21/20) < npMax ys := by
  have hlen : 0 < ys.length := List.length_pos.mpr hne
  have hmax : npMax ys < 0 := hneg _ (npMax_mem ys hne)
  constructor
  · simp [Layer.max_y, hk, BarLayer.max_y, maxOpt, hlen]
  · nlinarith

/-- C10, witness: for `y = [-10, -20]` the reported `max_y()` is
`-10 * 1.05 = -10.5`, strictly below the data maximum `-10`. -/
theorem C10_witness : Layer.max_y barC10 = -(21/2) ∧ Layer.max_y barC10 < -10 := by
  have h := C10_bar_negative barC10 (some [0, 1]) [-10, -20] rfl (by decide) (by decide)
  have hm : npMax [(-10 : ℚ), -20] = -10 := by
    norm_num [npMax, List.foldl, max_def]
  rw [hm] at h
  refine ⟨h.1.trans (by norm_num), ?_⟩
  rw [h.1]
  norm_num
